import Mathlib

/-!
# Verification of the porepy composite subsystem

Shallow embedding of `src/porepy/composite/computational_domain.py` and
`src/porepy/composite/substance.py`: the domain-wide variable registry,
the phase/composition resolver, the substance-name uniqueness table and
the material-assignment mapping.

Python dictionaries are modelled as association lists with first-match
lookup and replace-or-append update (Python dicts have unique keys and
`update` replaces in place).  Python sets are modelled as duplicate-free
lists with membership-based insertion; all set-valued claims are stated
via membership.  Object identity of variables is modelled by a `vid`
drawn from a freshness counter threaded through the domain state: a
newly created variable always receives an id never used before, so two
variable values are the same runtime instance iff they are equal.
Exceptions: operations that can raise return the post-call state paired
with an `Option String` (the exception message), or an `Except`; in the
source every raise happens before the corresponding mutation, which the
definitions mirror statement by statement.
-/

namespace Porepy

/-- First-match lookup in an association list (Python `d[k]` / `k in d`). -/
def dictLookup {α β : Type} [DecidableEq α] : List (α × β) → α → Option β
  | [], _ => none
  | (k', v) :: rest, k => if k' = k then some v else dictLookup rest k

/-- Replace-or-append update (Python `d.update({k: v})` / `d[k] = v`). -/
def dictUpdate {α β : Type} [DecidableEq α] : List (α × β) → α → β → List (α × β)
  | [], k, v => [(k, v)]
  | (k', v') :: rest, k, v =>
      if k' = k then (k, v) :: rest else (k', v') :: dictUpdate rest k v

/-- Python `set.add`: insert if absent, keep otherwise. -/
def setInsert (s : List String) (x : String) : List String :=
  if x ∈ s then s else s ++ [x]

instance {ε α : Type} [DecidableEq ε] [DecidableEq α] :
    DecidableEq (Except ε α) := fun x y =>
  match x, y with
  | Except.ok a, Except.ok b =>
      if h : a = b then Decidable.isTrue (by rw [h])
      else Decidable.isFalse (by intro hc; cases hc; exact h rfl)
  | Except.ok _, Except.error _ => Decidable.isFalse (by intro hc; cases hc)
  | Except.error _, Except.ok _ => Decidable.isFalse (by intro hc; cases hc)
  | Except.error e, Except.error f =>
      if h : e = f then Decidable.isTrue (by rw [h])
      else Decidable.isFalse (by intro hc; cases hc; exact h rfl)

/-! ## Data model -/

/-- A `pp.ad.MergedVariable` handle.  `vid` models Python object identity:
every creation draws a fresh id from the domain's counter. -/
structure MergedVariable where
  vid : Nat
  vname : String
  mortar : Bool
  dof_info : List (String × Nat)
deriving DecidableEq, Repr

/-- Modelled from the spec: `PhaseField` (file `phase.py` is not under `src/`).
Per the spec a phase has a name, is iterable over its substances (only their
names are consumed by the code under verification), and records the domain it
was constructed against (`phase.cd`, compared by identity; modelled as the
domain's id). -/
structure PhaseField where
  pname : String
  cd : Nat
  substances : List String
deriving DecidableEq, Repr

/-- Modelled from the spec: `MaterialSubdomain` (file `material_subdomain.py`
is not under `src/`) pairs one geometric subregion with one solid substance. -/
structure MaterialSubdomain where
  grid : Nat
  substance : String
deriving DecidableEq, Repr

/-- State of a `ComputationalDomain` instance.  Grids are opaque handles
(`Nat`).  `cdid` is the instance's identity (phases compare `phase.cd != self`
by identity).  `fresh` is the variable-identity counter; `dof_updates` counts
calls to the external `dof_manager.update_dofs()`. -/
structure ComputationalDomain where
  cdid : Nat
  grids : List Nat
  global_ad : List (String × MergedVariable)
  substance_names : List String
  substance_in_phase : List (String × List String)
  anticipated_phases : List PhaseField
  material_subdomains : List (Nat × MaterialSubdomain)
  fresh : Nat
  dof_updates : Nat
deriving DecidableEq, Repr

/-- Python `s.split("_")` on the underlying character list: splits at every
underscore, keeping empty fragments, and returns `[s]` when no underscore
occurs (in particular `[""]` on the empty string), exactly as `str.split`
with an explicit single-character separator. -/
def splitUnderscoreChars : List Char → List (List Char)
  | [] => [[]]
  | c :: rest =>
    let r := splitUnderscoreChars rest
    if c = '_' then [] :: r
    else
      match r with
      | [] => [[c]]
      | t :: ts => (c :: t) :: ts

/-- Python `variable_name.split("_")`. -/
def pySplitUnderscore (s : String) : List String :=
  (splitUnderscoreChars s.toList).map (fun l => String.mk l)

/-- Modelled from the spec: the naming-configuration entry
`COMPUTATIONAL_VARIABLES["mortar_prefix"]` (file `_composite_utils.py` is not
under `src/`); the spec's test scenario fixes the interface prefix to
`"mortar"`. -/
def mortar_marker : String := "mortar"

/-- Modelled from the spec: the naming-configuration entry
`COMPUTATIONAL_VARIABLES["component_overall_fraction"]`, a fixed prefix for
overall-fraction variable names (exact string not under `src/`; no claim
depends on its value). -/
def component_overall_fraction : String := "z"

/-- The default `dof_info = {"cells": 1}` of the registry accessor. -/
def defaultDofInfo : List (String × Nat) := [("cells", 1)]

/-- Modelled from the spec: the variable-creation collaborator
`create_merged_variable(gb, dof_info, name)` returns a fresh subregion-scoped
variable handle; it does not touch the domain's registry. -/
def create_merged_variable (fresh : Nat) (dof_info : List (String × Nat))
    (name : String) : MergedVariable :=
  { vid := fresh, vname := name, mortar := false, dof_info := dof_info }

/-- Modelled from the spec: the collaborator
`create_merged_mortar_variable(gb, dof_info, name)` returns a fresh
interface-scoped variable handle. -/
def create_merged_mortar_variable (fresh : Nat) (dof_info : List (String × Nat))
    (name : String) : MergedVariable :=
  { vid := fresh, vname := name, mortar := true, dof_info := dof_info }

/-! ## `ComputationalDomain.__call__` — the variable registry accessor -/

/-- `ComputationalDomain.__call__(variable_name, dof_info)`.  Returns the
post-call state and either the variable or the raised exception.  The
`split_name[1]` access raises `IndexError` when the first token equals the
mortar prefix but no second token exists; in the source this read happens
before any mutation, so the error branch returns the state unchanged. -/
def domainCall (cd : ComputationalDomain) (variable_name : String)
    (dof_info : List (String × Nat)) :
    ComputationalDomain × Except String MergedVariable :=
  match dictLookup cd.global_ad variable_name with
  | some var => (cd, Except.ok var)
  | none =>
    let split_name := pySplitUnderscore variable_name
    if mortar_marker = split_name.headD "" then
      match split_name with
      | _ :: _ :: _ =>
        let var := create_merged_mortar_variable cd.fresh dof_info variable_name
        ({ cd with global_ad := dictUpdate cd.global_ad variable_name var,
                   fresh := cd.fresh + 1,
                   dof_updates := cd.dof_updates + 1 }, Except.ok var)
      | _ => (cd, Except.error "IndexError: list index out of range")
    else
      let var := create_merged_variable cd.fresh dof_info variable_name
      ({ cd with global_ad := dictUpdate cd.global_ad variable_name var,
                 fresh := cd.fresh + 1,
                 dof_updates := cd.dof_updates + 1 }, Except.ok var)

/-- `ComputationalDomain.is_variable(var_name)`. -/
def is_variable (cd : ComputationalDomain) (var_name : String) : Bool :=
  match dictLookup cd.global_ad var_name with
  | some _ => true
  | none => false

/-- A sequence of accessor calls; an aborted call leaves the state as it was
(the `IndexError` is raised before any mutation). -/
def runCalls (cd : ComputationalDomain) :
    List (String × List (String × Nat)) → ComputationalDomain
  | [] => cd
  | (n, d) :: rest => runCalls (domainCall cd n d).1 rest

/-- A fresh domain over the given grids (`ComputationalDomain.__init__`:
empty registry, no phases, default material subdomains from `UnitSolid`). -/
def mkDomain (cdid : Nat) (grids : List Nat) : ComputationalDomain :=
  { cdid := cdid
    grids := grids
    global_ad := []
    substance_names := []
    substance_in_phase := []
    anticipated_phases := []
    material_subdomains := grids.map (fun g => (g, ⟨g, "UnitSolid"⟩))
    fresh := 0
    dof_updates := 0 }

/-! ## `ComputationalDomain._resolve_composition` and `add_phase` -/

/-- The body of `_resolve_composition`: starting from an empty dict and an
empty set, walk the phase list; for each phase collect its substances' names
into that phase's tuple (dict entry) and accumulate them into the unique
substance-name set. -/
def resolveStep (st : List (String × List String) × List String)
    (phase : PhaseField) : List (String × List String) × List String :=
  (dictUpdate st.1 phase.pname phase.substances,
   phase.substances.foldl setInsert st.2)

/-- `ComputationalDomain._resolve_composition()`: full rebuild of
`_substance_in_phase` and `_substance_names` from the current phase list. -/
def resolve_composition (cd : ComputationalDomain) : ComputationalDomain :=
  let st := cd.anticipated_phases.foldl resolveStep ([], [])
  { cd with substance_in_phase := st.1, substance_names := st.2 }

/-- The loop of `add_phase`: `old_names` is the snapshot of phase names taken
before the loop (it is never refreshed inside the loop).  For each phase:
a phase bound to another domain raises `ValueError` immediately (phases
appended so far stay appended); a name in the snapshot emits a warning and is
skipped; otherwise the phase is appended.  Returns the phase list, the number
of `warnings.warn` calls, and the raised exception if any. -/
def addPhaseLoop (cdid : Nat) (old_names : List String) :
    List PhaseField → List PhaseField → Nat →
      List PhaseField × Nat × Option String
  | acc, [], w => (acc, w, none)
  | acc, phase :: rest, w =>
    if phase.cd ≠ cdid then
      (acc, w, some ("ValueError: Phase '" ++ phase.pname ++
        "' instantiated on unknown ComputationalDomain."))
    else if phase.pname ∈ old_names then
      addPhaseLoop cdid old_names acc rest (w + 1)
    else
      addPhaseLoop cdid old_names (acc ++ [phase]) rest w

/-- `ComputationalDomain.add_phase(phases)` (the single-phase overload wraps
the argument in a one-element list first).  After the loop,
`_resolve_composition` runs — but only when no exception was raised; a
`ValueError` propagates before the recomputation. -/
def add_phase (cd : ComputationalDomain) (phases : List PhaseField) :
    ComputationalDomain × Nat × Option String :=
  let old_names := cd.anticipated_phases.map (fun p => p.pname)
  match addPhaseLoop cd.cdid old_names cd.anticipated_phases phases 0 with
  | (lst, w, some msg) =>
      ({ cd with anticipated_phases := lst }, w, some msg)
  | (lst, w, none) =>
      (resolve_composition { cd with anticipated_phases := lst }, w, none)

/-! ## `ComputationalDomain.assign_material_to_grid` -/

/-- `assign_material_to_grid(grid, substance)`: replaces the entry when the
grid belongs to the gridbucket, otherwise raises `KeyError` (before any
mutation, so the returned state is unchanged). -/
def assign_material_to_grid (cd : ComputationalDomain) (grid : Nat)
    (substance : String) : ComputationalDomain × Option String :=
  if grid ∈ cd.grids then
    ({ cd with material_subdomains :=
        dictUpdate cd.material_subdomains grid ⟨grid, substance⟩ }, none)
  else
    (cd, some "KeyError: Argument 'grid' not among grids in GridBucket.")

/-! ## `Substance.__new__` and `Substance.__init__` -/

/-- `Substance.__new__(cls, gb)` acting on the process-wide table
`Substance.__substance_instances` (keys: domain instances, modelled by id;
values: lists of substance names).  If the domain is known and the name is
already listed, raise `RuntimeError` (before any mutation); otherwise make
sure the domain has a (possibly empty) list and append the name.  Returns the
post-call table and the exception, if any. -/
def substanceNew (table : List (Nat × List String)) (gbid : Nat)
    (name : String) : List (Nat × List String) × Option String :=
  match dictLookup table gbid with
  | some names =>
      if name ∈ names then
        (table, some ("RuntimeError: Substance with name '" ++ name ++
          "' already present"))
      else
        (dictUpdate table gbid (names ++ [name]), none)
  | none =>
      (dictUpdate (dictUpdate table gbid []) gbid ([] ++ [name]), none)

/-- `Substance.overall_fraction_var`: the fixed overall-fraction prefix,
an underscore, and the substance's (type) name. -/
def overall_fraction_var (name : String) : String :=
  component_overall_fraction ++ "_" ++ name

/-- `Substance.__init__(gb)`: creates the overall-molar-fraction variable by
calling the collaborator `create_merged_variable(gb, {"cells": 1},
self.overall_fraction_var)` directly — it does not go through the domain's
registry accessor, so `_global_ad` is not touched.  Returns the substance's
cached `_omf` handle and the post-call domain state (only the freshness
counter moves: a new variable object was created). -/
def substanceInit (cd : ComputationalDomain) (name : String) :
    MergedVariable × ComputationalDomain :=
  (create_merged_variable cd.fresh defaultDofInfo (overall_fraction_var name),
   { cd with fresh := cd.fresh + 1 })

/-! ## Concrete instances used by counterexamples and witnesses -/

/-- A fresh domain with two grids, as in the spec's test scenario. -/
def cdE : ComputationalDomain := mkDomain 0 [0, 1]

/-- Phase "A" on `cdE`, containing substance "Water". -/
def phA : PhaseField := ⟨"A", 0, ["Water"]⟩

/-- Phase "B" on `cdE`, containing substance "Salt". -/
def phB : PhaseField := ⟨"B", 0, ["Salt"]⟩

/-- A phase named "B" constructed against a different domain (id 1). -/
def phBad : PhaseField := ⟨"B", 1, ["Salt"]⟩

/-- A phase named "P" containing "Water". -/
def phP1 : PhaseField := ⟨"P", 0, ["Water"]⟩

/-- A second, distinct phase also named "P", containing "Salt". -/
def phP2 : PhaseField := ⟨"P", 0, ["Salt"]⟩

/-- The state of `cdE` after registering the two phases "A" and "B". -/
def cdAB : ComputationalDomain := (add_phase cdE [phA, phB]).1

/-- The variable created when registering "pressure" on a fresh domain. -/
def vPressure : MergedVariable := ⟨0, "pressure", false, defaultDofInfo⟩

/-- The domain state after registering "pressure" on `mkDomain 0 [0]`. -/
def cdPressure : ComputationalDomain :=
  { cdid := 0, grids := [0], global_ad := [("pressure", vPressure)],
    substance_names := [], substance_in_phase := [], anticipated_phases := [],
    material_subdomains := [(0, ⟨0, "UnitSolid"⟩)], fresh := 1, dof_updates := 1 }

/-- The variable created when registering "mortar_pressure" on `cdE`. -/
def vMortarPressure : MergedVariable := ⟨0, "mortar_pressure", true, defaultDofInfo⟩

/-- The state of `cdE` after registering "mortar_pressure". -/
def cdMortarPressure : ComputationalDomain :=
  { cdE with global_ad := [("mortar_pressure", vMortarPressure)],
             fresh := 1, dof_updates := 1 }

/-! ## Association-list and set lemmas -/

theorem dictLookup_update_self {α β : Type} [DecidableEq α]
    (d : List (α × β)) (k : α) (v : β) :
    dictLookup (dictUpdate d k v) k = some v := by
  induction d with
  | nil => simp [dictLookup, dictUpdate]
  | cons hd tl ih =>
    obtain ⟨k', v'⟩ := hd
    by_cases h : k' = k
    · simp [dictLookup, dictUpdate, h]
    · simp [dictLookup, dictUpdate, h, ih]

theorem dictLookup_update_ne {α β : Type} [DecidableEq α]
    (d : List (α × β)) (k k' : α) (v : β) (h : k' ≠ k) :
    dictLookup (dictUpdate d k v) k' = dictLookup d k' := by
  have h' : ¬ k = k' := fun e => h e.symm
  induction d with
  | nil => simp [dictLookup, dictUpdate, h']
  | cons hd tl ih =>
    obtain ⟨k₀, v₀⟩ := hd
    by_cases h0 : k₀ = k
    · subst h0
      simp [dictLookup, dictUpdate, h']
    · by_cases h1 : k₀ = k'
      · simp [dictLookup, dictUpdate, h0, h1, h]
      · simp [dictLookup, dictUpdate, h0, h1, ih]

theorem mem_setInsert (s : List String) (x y : String) :
    y ∈ setInsert s x ↔ y ∈ s ∨ y = x := by
  unfold setInsert
  by_cases h : x ∈ s
  · simp [h]
    intro hyx; subst hyx; exact h
  · simp [h]

/-! ## Registry lemmas -/

theorem is_variable_false_iff (cd : ComputationalDomain) (n : String) :
    is_variable cd n = false ↔ dictLookup cd.global_ad n = none := by
  unfold is_variable
  cases dictLookup cd.global_ad n <;> simp

/-- A registered name is returned from the fast path, with no state change. -/
theorem lookup_domainCall (cd : ComputationalDomain) (n : String)
    (d : List (String × Nat)) (v : MergedVariable)
    (h : dictLookup cd.global_ad n = some v) :
    domainCall cd n d = (cd, Except.ok v) := by
  unfold domainCall
  rw [h]

/-- A successful accessor call leaves the requested name mapped to the
returned variable. -/
theorem domainCall_ok_lookup (cd : ComputationalDomain) (n : String)
    (d : List (String × Nat)) (cd₁ : ComputationalDomain) (v : MergedVariable)
    (h : domainCall cd n d = (cd₁, Except.ok v)) :
    dictLookup cd₁.global_ad n = some v := by
  unfold domainCall at h
  cases hm : dictLookup cd.global_ad n with
  | some var =>
      rw [hm] at h
      obtain ⟨h1, h2⟩ := Prod.mk.injEq .. ▸ h
      cases h2
      rw [← h1]
      exact hm
  | none =>
      rw [hm] at h
      simp only [] at h
      split at h
      · split at h
        · obtain ⟨h1, h2⟩ := Prod.mk.injEq .. ▸ h
          cases h2
          rw [← h1]
          exact dictLookup_update_self ..
        · simp at h
      · obtain ⟨h1, h2⟩ := Prod.mk.injEq .. ▸ h
        cases h2
        rw [← h1]
        exact dictLookup_update_self ..

/-- Any accessor call (for any name, succeeding or raising) preserves the
registry entry of an already-registered name. -/
theorem domainCall_preserves_lookup (cd : ComputationalDomain) (m : String)
    (d : List (String × Nat)) (n : String) (v : MergedVariable)
    (h : dictLookup cd.global_ad n = some v) :
    dictLookup ((domainCall cd m d).1).global_ad n = some v := by
  unfold domainCall
  cases hm : dictLookup cd.global_ad m with
  | some var => exact h
  | none =>
      have hnm : n ≠ m := by
        intro e
        rw [e, hm] at h
        cases h
      simp only []
      split
      · split
        · simpa [dictLookup_update_ne cd.global_ad m n _ hnm] using h
        · exact h
      · simpa [dictLookup_update_ne cd.global_ad m n _ hnm] using h

/-- A whole sequence of accessor calls preserves a registered entry. -/
theorem runCalls_preserves_lookup (calls : List (String × List (String × Nat)))
    (cd : ComputationalDomain) (n : String) (v : MergedVariable)
    (h : dictLookup cd.global_ad n = some v) :
    dictLookup (runCalls cd calls).global_ad n = some v := by
  induction calls generalizing cd with
  | nil => exact h
  | cons c rest ih =>
      obtain ⟨m, d⟩ := c
      exact ih _ (domainCall_preserves_lookup cd m d n v h)

/-- Claim C2: for every variable name `n`, two calls to the registry accessor
with the same `n` return the same `MergedVariable` instance (in the model,
instance identity is the `vid` drawn from the freshness counter, so equality
of handles is identity), regardless of any intervening accessor calls; the
second call performs no creation at all (the state is returned untouched), so
the variable created by the first call is never silently duplicated. -/
theorem registry_shared_reference (cd : ComputationalDomain) (n : String)
    (d d' : List (String × Nat)) (calls : List (String × List (String × Nat)))
    (v : MergedVariable) (cd₁ : ComputationalDomain)
    (h : domainCall cd n d = (cd₁, Except.ok v)) :
    domainCall (runCalls cd₁ calls) n d' = (runCalls cd₁ calls, Except.ok v) :=
  lookup_domainCall _ _ _ _
    (runCalls_preserves_lookup calls cd₁ n v (domainCall_ok_lookup cd n d cd₁ v h))

theorem registry_shared_reference_witness :
    domainCall (runCalls cdPressure [("temperature", defaultDofInfo)])
        "pressure" defaultDofInfo =
      (runCalls cdPressure [("temperature", defaultDofInfo)],
        Except.ok vPressure) :=
  registry_shared_reference (mkDomain 0 [0]) "pressure" defaultDofInfo
    defaultDofInfo [("temperature", defaultDofInfo)] vPressure cdPressure
    (by decide)

/-- Claim C6: for every requested name that is not yet registered, whenever
the accessor returns a newly created variable, that variable came from the
interface (mortar) creation routine exactly when the name's first
underscore-delimited token equals the reserved mortar prefix, and from the
subregion creation routine for every other name. -/
theorem mortar_scoping (cd : ComputationalDomain) (n : String)
    (d : List (String × Nat)) (cd₁ : ComputationalDomain) (v : MergedVariable)
    (hreg : is_variable cd n = false)
    (hok : domainCall cd n d = (cd₁, Except.ok v)) :
    (mortar_marker = (pySplitUnderscore n).headD "" →
      v = create_merged_mortar_variable cd.fresh d n) ∧
    (mortar_marker ≠ (pySplitUnderscore n).headD "" →
      v = create_merged_variable cd.fresh d n) := by
  rw [is_variable_false_iff] at hreg
  unfold domainCall at hok
  rw [hreg] at hok
  simp only [] at hok
  split at hok
  · split at hok
    · obtain ⟨h1, h2⟩ := Prod.mk.injEq .. ▸ hok
      cases h2
      constructor
      · intro _; rfl
      · intro hne
        exact absurd (by assumption) hne
    · simp at hok
  · obtain ⟨h1, h2⟩ := Prod.mk.injEq .. ▸ hok
    cases h2
    constructor
    · intro hp
      exact absurd hp (by assumption)
    · intro _; rfl

theorem mortar_scoping_witness :
    (mortar_marker = (pySplitUnderscore "mortar_pressure").headD "" →
      vMortarPressure = create_merged_mortar_variable 0 defaultDofInfo "mortar_pressure") ∧
    (mortar_marker ≠ (pySplitUnderscore "mortar_pressure").headD "" →
      vMortarPressure = create_merged_variable 0 defaultDofInfo "mortar_pressure") :=
  mortar_scoping cdE "mortar_pressure" defaultDofInfo cdMortarPressure
    vMortarPressure (by decide) (by decide)

/-- Claim C7, counterexample: the no-underscore name equal to the reserved
interface prefix itself ("mortar") does raise: its token list is the
singleton `["mortar"]`, the first token equals the prefix, and the
`split_name[1]` access raises `IndexError` — refuting "the registry accessor
does not raise any error for every no-underscore string, including one equal
to the reserved interface prefix itself". -/
theorem no_underscore_prefix_raises :
    pySplitUnderscore "mortar" = ["mortar"] ∧
    domainCall cdE "mortar" defaultDofInfo =
      (cdE, Except.error "IndexError: list index out of range") := by decide

/-- Claim C7, amended: for every unregistered name with no underscore (its
token list is the singleton holding the whole string) that differs from the
reserved interface prefix, the accessor raises no error: the whole string is
treated as the base symbol and a subregion-scoped variable is created.  The
name exactly equal to the prefix instead raises an `IndexError` (see the
counterexample). -/
theorem no_underscore_degrades (cd : ComputationalDomain) (n : String)
    (d : List (String × Nat))
    (hreg : is_variable cd n = false)
    (hsplit : pySplitUnderscore n = [n])
    (hne : n ≠ mortar_marker) :
    domainCall cd n d =
      ({ cd with
          global_ad := dictUpdate cd.global_ad n (create_merged_variable cd.fresh d n),
          fresh := cd.fresh + 1,
          dof_updates := cd.dof_updates + 1 },
        Except.ok (create_merged_variable cd.fresh d n)) := by
  rw [is_variable_false_iff] at hreg
  unfold domainCall
  rw [hreg]
  simp only [hsplit, List.headD]
  rw [if_neg (fun e => hne e.symm)]

theorem no_underscore_degrades_witness :
    domainCall cdE "pressure" defaultDofInfo =
      ({ cdE with
          global_ad := dictUpdate [] "pressure"
            (create_merged_variable 0 defaultDofInfo "pressure"),
          fresh := 1,
          dof_updates := 1 },
        Except.ok (create_merged_variable 0 defaultDofInfo "pressure")) :=
  no_underscore_degrades cdE "pressure" defaultDofInfo
    (by decide) (by decide) (by decide)

/-- Claim C3, counterexample: constructing a substance ("Water") on a fresh
domain does not register its overall-fraction variable in the domain's
registry: the existence check afterwards reports the name as *not*
registered (the claim asserts it reports it as registered), because
`Substance.__init__` calls `create_merged_variable` directly instead of the
domain's accessor. -/
theorem substance_fraction_not_registered :
    is_variable (substanceInit cdE "Water").2 (overall_fraction_var "Water") = false ∧
    ((substanceInit cdE "Water").1).vname = overall_fraction_var "Water" := by decide

/-- Claim C3, amended: on successful construction a substance eagerly creates
its overall-fraction variable (name = the fixed overall-fraction prefix, an
underscore, and the substance's type name) directly through the
variable-creation collaborator and caches it as `_omf`; the domain's Variable
Registry is bypassed: `_global_ad` is unchanged, so the registry's existence
check for that name reports exactly what it reported before construction. -/
theorem substance_init_bypasses_registry (cd : ComputationalDomain) (name : String) :
    ((substanceInit cd name).2).global_ad = cd.global_ad ∧
    ((substanceInit cd name).1).vname = overall_fraction_var name ∧
    is_variable (substanceInit cd name).2 (overall_fraction_var name) =
      is_variable cd (overall_fraction_var name) :=
  ⟨rfl, rfl, rfl⟩

/-- Claim C1: the code contradicts the claim on a duplicate inside one batch.
On a domain with an empty phase list, `add_phase([A, B, A])` appends `A`
twice — the resulting phase list is `[A, B, A]` and zero warnings are
emitted — because the already-present check consults a snapshot of phase
names taken before the loop and never refreshed.  A duplicate arriving in a
*later* call is skipped with exactly one warning, as the claim describes. -/
theorem add_phase_batch_duplicate_bug :
    (add_phase cdE [phA, phB, phA]).1.anticipated_phases = [phA, phB, phA] ∧
    (add_phase cdE [phA, phB, phA]).2.1 = 0 ∧
    (add_phase cdE [phA, phB, phA]).2.2 = Option.none ∧
    (add_phase (add_phase cdE [phA, phB]).1 [phA]).1.anticipated_phases = [phA, phB] ∧
    (add_phase (add_phase cdE [phA, phB]).1 [phA]).2.1 = 1 := by decide

/-! ## Composition-resolver lemmas -/

theorem mem_foldl_setInsert (l : List String) (s : List String) (y : String) :
    y ∈ l.foldl setInsert s ↔ y ∈ s ∨ y ∈ l := by
  induction l generalizing s with
  | nil => simp
  | cons x rest ih =>
      rw [List.foldl_cons, ih, mem_setInsert, List.mem_cons]
      tauto

theorem mem_foldl_resolveStep_snd (phases : List PhaseField)
    (st : List (String × List String) × List String) (s : String) :
    s ∈ (phases.foldl resolveStep st).2 ↔
      s ∈ st.2 ∨ ∃ p ∈ phases, s ∈ p.substances := by
  induction phases generalizing st with
  | nil => simp
  | cons q rest ih =>
      rw [List.foldl_cons, ih,
        show (resolveStep st q).2 = q.substances.foldl setInsert st.2 from rfl,
        mem_foldl_setInsert]
      simp only [List.mem_cons]
      constructor
      · rintro ((h | h) | ⟨p, hp, hs⟩)
        · exact Or.inl h
        · exact Or.inr ⟨q, Or.inl rfl, h⟩
        · exact Or.inr ⟨p, Or.inr hp, hs⟩
      · rintro (h | ⟨p, (rfl | hp), hs⟩)
        · exact Or.inl (Or.inl h)
        · exact Or.inl (Or.inr hs)
        · exact Or.inr ⟨p, hp, hs⟩

theorem foldl_resolveStep_lookup_notmem (phases : List PhaseField)
    (st : List (String × List String) × List String) (n : String)
    (h : n ∉ phases.map PhaseField.pname) :
    dictLookup (phases.foldl resolveStep st).1 n = dictLookup st.1 n := by
  induction phases generalizing st with
  | nil => rfl
  | cons q rest ih =>
      rw [List.map_cons, List.mem_cons] at h
      push_neg at h
      rw [List.foldl_cons, ih _ h.2]
      exact dictLookup_update_ne st.1 q.pname n q.substances h.1

theorem foldl_resolveStep_lookup_mem (phases : List PhaseField)
    (st : List (String × List String) × List String) (p : PhaseField)
    (hnd : (phases.map PhaseField.pname).Nodup) (hp : p ∈ phases) :
    dictLookup (phases.foldl resolveStep st).1 p.pname = some p.substances := by
  induction phases generalizing st with
  | nil => cases hp
  | cons q rest ih =>
      rw [List.map_cons, List.nodup_cons] at hnd
      rw [List.foldl_cons]
      rcases List.mem_cons.mp hp with h | h
      · subst h
        rw [foldl_resolveStep_lookup_notmem rest _ _ (by simpa using hnd.1)]
        exact dictLookup_update_self st.1 p.pname p.substances
      · exact ih _ hnd.2 h

/-- Membership in the rebuilt unique-substance set. -/
theorem resolve_names_mem (cd : ComputationalDomain) (s : String) :
    s ∈ (resolve_composition cd).substance_names ↔
      ∃ p ∈ cd.anticipated_phases, s ∈ p.substances := by
  show s ∈ (cd.anticipated_phases.foldl resolveStep ([], [])).2 ↔ _
  rw [mem_foldl_resolveStep_snd]
  simp

/-- The rebuilt per-phase tuple of a listed phase, when phase names are
pairwise distinct. -/
theorem resolve_lookup_phase (cd : ComputationalDomain) (p : PhaseField)
    (hnd : (cd.anticipated_phases.map PhaseField.pname).Nodup)
    (hp : p ∈ cd.anticipated_phases) :
    dictLookup (resolve_composition cd).substance_in_phase p.pname =
      some p.substances :=
  foldl_resolveStep_lookup_mem cd.anticipated_phases ([], []) p hnd hp

/-- `_resolve_composition` is a full rebuild from the phase list alone, hence
idempotent. -/
theorem resolve_idem (cd : ComputationalDomain) :
    resolve_composition (resolve_composition cd) = resolve_composition cd := rfl

/-- An `add_phase` call that returns normally ends in `_resolve_composition`,
so its final state is a fixed point of the resolver. -/
theorem add_phase_ok_resolve (cd : ComputationalDomain) (ps : List PhaseField)
    (cd' : ComputationalDomain) (w : Nat)
    (h : add_phase cd ps = (cd', w, none)) :
    resolve_composition cd' = cd' := by
  unfold add_phase at h
  simp only [] at h
  cases hm : addPhaseLoop cd.cdid (cd.anticipated_phases.map fun p => p.pname)
      cd.anticipated_phases ps 0 with
  | mk lst rest =>
      obtain ⟨w', e⟩ := rest
      rw [hm] at h
      cases e with
      | some msg => simp at h
      | none =>
          obtain ⟨h1, _⟩ := Prod.mk.injEq .. ▸ h
          rw [← h1]
          exact resolve_idem _

/-- Claim C4, counterexample: two *distinct* phases that share the name "P"
(possible in one batch, since the duplicate check uses a pre-loop snapshot)
are both listed after a normally returning `add_phase`, but the composition
entry for that name holds only the later phase's substances: the listed phase
`phP1` has substances `["Water"]` while its per-phase tuple is `["Salt"]` —
refuting "for every listed phase P the per-phase tuple contains exactly and
only the names of P's substances". -/
theorem composition_duplicate_name_mismatch :
    (add_phase cdE [phP1, phP2]).2.2 = Option.none ∧
    phP1 ∈ (add_phase cdE [phP1, phP2]).1.anticipated_phases ∧
    phP1.substances = ["Water"] ∧
    dictLookup (add_phase cdE [phP1, phP2]).1.substance_in_phase phP1.pname =
      some ["Salt"] := by decide

/-- Claim C4, amended: after any `add_phase` call that returns normally and
leaves the listed phases with pairwise-distinct names (which holds whenever
no within-batch duplicate was supplied), the stored composition's
substance-name set equals the union of the substance names over all listed
phases, the per-phase tuple of every listed phase P holds exactly and only
the names of P's substances in P's iteration order, and the rebuild is
idempotent: recomputing with the unchanged phase list returns the state
unchanged. -/
theorem composition_resolved_after_add_phase (cd : ComputationalDomain)
    (ps : List PhaseField) (cd' : ComputationalDomain) (w : Nat)
    (h : add_phase cd ps = (cd', w, none))
    (hnd : (cd'.anticipated_phases.map PhaseField.pname).Nodup) :
    (∀ s, s ∈ cd'.substance_names ↔
        ∃ p ∈ cd'.anticipated_phases, s ∈ p.substances) ∧
    (∀ p ∈ cd'.anticipated_phases,
        dictLookup cd'.substance_in_phase p.pname = some p.substances) ∧
    resolve_composition cd' = cd' := by
  have hres := add_phase_ok_resolve cd ps cd' w h
  refine ⟨fun s => ?_, fun p hp => ?_, hres⟩
  · conv_lhs => rw [← hres]
    exact resolve_names_mem cd' s
  · conv_lhs => rw [← hres]
    exact resolve_lookup_phase cd' p hnd hp

theorem composition_resolved_after_add_phase_witness :
    ("Water" ∈ cdAB.substance_names ↔
      ∃ p ∈ cdAB.anticipated_phases, "Water" ∈ p.substances) ∧
    dictLookup cdAB.substance_in_phase phA.pname = some phA.substances ∧
    resolve_composition cdAB = cdAB := by
  obtain ⟨h1, h2, h3⟩ := composition_resolved_after_add_phase cdE [phA, phB]
    cdAB 0 (by decide) (by decide)
  exact ⟨h1 "Water", h2 phA (by decide), h3⟩

/-- Claim C9, counterexample: an `add_phase([A, Bad])` call where `Bad` is
bound to a different domain appends `A`, then raises the binding-mismatch
`ValueError` *before* `_resolve_composition` runs: the phase list is `[A]`
but the stored substance-name set is still empty, while re-deriving it from
the phase list yields `["Water"]` — the stored composition is stale, refuting
"after every add_phase call finishes, including a call that terminates by
raising the binding-mismatch error, the stored composition is consistent with
the phase list as it stands". -/
theorem stale_composition_after_binding_error :
    (add_phase cdE [phA, phBad]).2.2 =
      some "ValueError: Phase 'B' instantiated on unknown ComputationalDomain." ∧
    (add_phase cdE [phA, phBad]).1.anticipated_phases = [phA] ∧
    (add_phase cdE [phA, phBad]).1.substance_names = [] ∧
    (resolve_composition (add_phase cdE [phA, phBad]).1).substance_names =
      ["Water"] := by decide

/-- Claim C9, amended: after every `add_phase` call that returns *normally*
the stored composition is consistent with the phase list — re-deriving it
from the current phase list reproduces the stored substance-name set and
per-phase map exactly.  A call aborted by the binding-mismatch error skips
the rebuild and may leave the composition stale relative to phases appended
earlier in the same batch (see the counterexample). -/
theorem composition_consistent_on_normal_return (cd : ComputationalDomain)
    (ps : List PhaseField) (cd' : ComputationalDomain) (w : Nat)
    (h : add_phase cd ps = (cd', w, none)) :
    cd'.substance_names = (resolve_composition cd').substance_names ∧
    cd'.substance_in_phase = (resolve_composition cd').substance_in_phase := by
  rw [add_phase_ok_resolve cd ps cd' w h]
  exact ⟨rfl, rfl⟩

theorem composition_consistent_on_normal_return_witness :
    cdAB.substance_names = (resolve_composition cdAB).substance_names ∧
    cdAB.substance_in_phase = (resolve_composition cdAB).substance_in_phase :=
  composition_consistent_on_normal_return cdE [phA, phB] cdAB 0 (by decide)

/-! ## Substance uniqueness and material assignment -/

/-- Claim C5: constructing two substances of the same concrete type (same
type name) against the same domain instance raises the duplicate-name
`RuntimeError` on the second construction — checked at construction time
against the process-wide table keyed by domain instance — while constructing
the same type against a second, fresh domain instance succeeds. -/
theorem substance_uniqueness (table : List (Nat × List String)) (g₁ g₂ : Nat)
    (n : String) (t₁ : List (Nat × List String))
    (h₁ : substanceNew table g₁ n = (t₁, none))
    (hg : g₁ ≠ g₂) (h₂ : dictLookup table g₂ = none) :
    substanceNew t₁ g₁ n =
      (t₁, some ("RuntimeError: Substance with name '" ++ n ++ "' already present")) ∧
    (substanceNew t₁ g₂ n).2 = none := by
  have hg' : g₂ ≠ g₁ := fun e => hg e.symm
  have key : (∃ L, dictLookup t₁ g₁ = some L ∧ n ∈ L) ∧
      dictLookup t₁ g₂ = none := by
    unfold substanceNew at h₁
    split at h₁
    · next names heq =>
        split at h₁
        · exact absurd (congrArg Prod.snd h₁) (by simp)
        · obtain ⟨h1, _⟩ := Prod.mk.injEq .. ▸ h₁
          constructor
          · refine ⟨names ++ [n], ?_, by simp⟩
            rw [← h1]
            exact dictLookup_update_self ..
          · rw [← h1, dictLookup_update_ne _ _ _ _ hg']
            exact h₂
    · next heq =>
        obtain ⟨h1, _⟩ := Prod.mk.injEq .. ▸ h₁
        constructor
        · refine ⟨[] ++ [n], ?_, by simp⟩
          rw [← h1]
          exact dictLookup_update_self ..
        · rw [← h1, dictLookup_update_ne _ _ _ _ hg',
            dictLookup_update_ne _ _ _ _ hg']
          exact h₂
  obtain ⟨⟨L, hL, hnL⟩, hg2⟩ := key
  constructor
  · unfold substanceNew
    split
    · next names heq =>
        rw [hL] at heq
        obtain rfl : names = L := by cases heq; rfl
        rw [if_pos hnL]
    · next heq => rw [hL] at heq; cases heq
  · unfold substanceNew
    split
    · next names heq => rw [hg2] at heq; cases heq
    · rfl

theorem substance_uniqueness_witness :
    substanceNew [(0, ["Water"])] 0 "Water" =
      ([(0, ["Water"])],
        some ("RuntimeError: Substance with name '" ++ "Water" ++ "' already present")) ∧
    (substanceNew [(0, ["Water"])] 1 "Water").2 = none :=
  substance_uniqueness [] 0 1 "Water" [(0, ["Water"])]
    (by decide) (by decide) (by decide)

/-- Claim C10: when `Substance.__new__` fails with the duplicate-name error,
the process-wide substance-name table is returned exactly as it was — the
raise happens before any entry is appended, so the registered names of every
domain instance are unchanged by the failed construction attempt. -/
theorem substance_new_failure_preserves_table (table : List (Nat × List String))
    (g : Nat) (n : String) (t' : List (Nat × List String)) (e : String)
    (h : substanceNew table g n = (t', some e)) : t' = table := by
  unfold substanceNew at h
  split at h
  · split at h
    · obtain ⟨h1, _⟩ := Prod.mk.injEq .. ▸ h
      exact h1.symm
    · exact absurd (congrArg Prod.snd h) (by simp)
  · exact absurd (congrArg Prod.snd h) (by simp)

theorem substance_new_failure_preserves_table_witness :
    (substanceNew [(0, ["Water"])] 0 "Water").1 = [(0, ["Water"])] :=
  substance_new_failure_preserves_table [(0, ["Water"])] 0 "Water"
    (substanceNew [(0, ["Water"])] 0 "Water").1
    ("RuntimeError: Substance with name '" ++ "Water" ++ "' already present")
    (by decide)

/-- Claim C8: `assign_material_to_grid(grid, substance)` raises the lookup
`KeyError` exactly when the grid is not among the grids of the domain's
gridbucket, and then the whole subregion-to-material mapping (indeed the
whole state) is unchanged; on success no error is raised, the entry for the
given grid is replaced by the new material subdomain, and the entry of every
other grid is unchanged. -/
theorem assign_material_contract (cd : ComputationalDomain) (grid : Nat)
    (substance : String) :
    (grid ∉ cd.grids →
      assign_material_to_grid cd grid substance =
        (cd, some "KeyError: Argument 'grid' not among grids in GridBucket.")) ∧
    (grid ∈ cd.grids →
      (assign_material_to_grid cd grid substance).2 = none ∧
      dictLookup (assign_material_to_grid cd grid substance).1.material_subdomains
        grid = some ⟨grid, substance⟩ ∧
      ∀ g, g ≠ grid →
        dictLookup (assign_material_to_grid cd grid substance).1.material_subdomains
          g = dictLookup cd.material_subdomains g) := by
  constructor
  · intro hnot
    unfold assign_material_to_grid
    rw [if_neg hnot]
  · intro hmem
    unfold assign_material_to_grid
    rw [if_pos hmem]
    refine ⟨rfl, dictLookup_update_self .., fun g hne => ?_⟩
    exact dictLookup_update_ne _ _ _ _ hne

theorem assign_material_contract_witness :
    assign_material_to_grid cdE 2 "Quartz" =
      (cdE, some "KeyError: Argument 'grid' not among grids in GridBucket.") ∧
    dictLookup (assign_material_to_grid cdE 1 "Quartz").1.material_subdomains 0 =
      some ⟨0, "UnitSolid"⟩ := by
  refine ⟨(assign_material_contract cdE 2 "Quartz").1 (by decide), ?_⟩
  rw [((assign_material_contract cdE 1 "Quartz").2 (by decide)).2.2 0 (by decide)]
  decide

end Porepy
